import Mathlib

/-!
Shallow embedding of `tx.go` (package btcutil): the `Tx` transaction handle
with its memoized hash, raw-byte retention and block-position index.

Modelling conventions:
* The external collaborator types `btcwire.MsgTx`, `btcwire.ShaHash` and the
  codec error are opaque to this core, so they appear as type parameters
  `M`, `S`, `E`.
* Go pointers that may be nil (`msgTx *btcwire.MsgTx`, `txSha *btcwire.ShaHash`)
  and the nil-able slice `serializedTx []byte` are embedded as `Option`.
* The external hashing operation `MsgTx.TxSha` is a parameter
  `hash : M → S`; per its contract (and the source comment
  "TxSha can't currently fail", whose error return the code discards)
  it is total. Calling it requires the pointed-to record, so a nil
  `msgTx` pointer makes `Sha` panic: the embedding returns `none` there.
* Methods that mutate the receiver are embedded by explicit state passing:
  they return the updated handle alongside their result.
-/

/-- Sentinel for a transaction index that is unknown (`TxIndexUnknown = -1`). -/
def TxIndexUnknown : Int := -1

/-- The `Tx` struct: underlying record pointer, optional serialized bytes,
cached hash pointer, and position within a block. -/
structure Tx (M S : Type) where
  msgTx : Option M
  serializedTx : Option (List Nat)
  txSha : Option S
  txIndex : Int
deriving Repr, DecidableEq

/-- Method `MsgTx`: returns the underlying record pointer unchanged. -/
def Tx.MsgTx {M S : Type} (t : Tx M S) : Option M :=
  t.msgTx

/-- Method `Sha`: return the cached hash if already generated; otherwise
invoke the external hashing operation on the record, cache the result and
return it. Returns the hash together with the updated handle; `none` models
the nil-pointer dereference panic when the record pointer is nil and no hash
is cached. -/
def Tx.Sha {M S : Type} (hash : M → S) (t : Tx M S) : Option (S × Tx M S) :=
  match t.txSha with
  | some sha => some (sha, t)
  | none =>
    match t.msgTx with
    | none => none
    | some m =>
      let sha := hash m
      some (sha, { t with txSha := some sha })

/-- Number of invocations of the external hashing operation that a single
call to `Sha` performs: zero when the cached-hash branch is taken, one when
the hash is generated. -/
def Tx.shaInvocations {M S : Type} (t : Tx M S) : Nat :=
  if t.txSha.isSome then 0 else 1

/-- Method `Index`: returns the saved index of the transaction. -/
def Tx.Index {M S : Type} (t : Tx M S) : Int :=
  t.txIndex

/-- Method `SetIndex`: sets the index of the transaction. -/
def Tx.SetIndex {M S : Type} (t : Tx M S) (index : Int) : Tx M S :=
  { t with txIndex := index }

/-- Constructor `NewTx`: wraps a record pointer, index set to the unknown
sentinel, other fields left at their zero values. -/
def NewTx {M S : Type} (msgTx : Option M) : Tx M S :=
  { msgTx := msgTx
    serializedTx := none
    txSha := none
    txIndex := TxIndexUnknown }

/-- Constructor `NewTxFromBytes`: deserializes the bytes into a record via
the external codec `deserialize`; on codec failure the error is returned
verbatim and no handle is produced; on success the decoded record is wrapped,
the original bytes retained, the index set to the unknown sentinel. -/
def NewTxFromBytes {M S E : Type} (deserialize : List Nat → Except E M)
    (serializedTx : List Nat) : Except E (Tx M S) :=
  match deserialize serializedTx with
  | .error err => .error err
  | .ok msgTx =>
    .ok { msgTx := some msgTx
          serializedTx := some serializedTx
          txSha := none
          txIndex := TxIndexUnknown }

/-- A sequence of `n` consecutive calls of `Sha` on a handle: returns the
list of returned hashes, the final handle state, and the total number of
invocations of the external hashing operation across the calls. -/
def Tx.shaCalls {M S : Type} (hash : M → S) : Nat → Tx M S → Option (List S × Tx M S × Nat)
  | 0, t => some ([], t, 0)
  | n + 1, t =>
    match Tx.Sha hash t with
    | none => none
    | some (s, t1) =>
      match Tx.shaCalls hash n t1 with
      | none => none
      | some (rest, t2, c) => some (s :: rest, t2, Tx.shaInvocations t + c)

/-- Concrete codec used to exercise the constructors: rejects `[0]` with a
unit diagnostic and decodes any other byte list to its length. -/
def lenCodec : List Nat → Except Unit Nat :=
  fun b => if b = [0] then Except.error () else Except.ok b.length

/-- Concrete handle with record `5` and cached hash `9`. -/
def tx95 : Tx Nat Nat :=
  { msgTx := some 5, serializedTx := none, txSha := some 9, txIndex := -1 }

section Lemmas

variable {M S E : Type}

/-- After a successful `Sha` call the cache holds the returned hash. -/
theorem Tx.Sha_cache {hash : M → S} {t : Tx M S} {s : S} {t1 : Tx M S}
    (h : Tx.Sha hash t = some (s, t1)) : t1.txSha = some s := by
  unfold Tx.Sha at h
  cases hc : t.txSha with
  | some sha =>
    simp [hc] at h
    rw [← h.2, hc, h.1]
  | none =>
    cases hm : t.msgTx with
    | none => simp [hc, hm] at h
    | some m =>
      simp [hc, hm] at h
      rw [← h.2]
      simp [h.1]

/-- When the cache is set, `Sha` returns the cached value and leaves the
handle unchanged. -/
theorem Tx.Sha_cached {hash : M → S} {t : Tx M S} {s : S}
    (h : t.txSha = some s) : Tx.Sha hash t = some (s, t) := by
  unfold Tx.Sha
  simp [h]

/-- When the cache is set, a call to `Sha` performs no hash invocation. -/
theorem Tx.shaInvocations_cached {t : Tx M S} {s : S}
    (h : t.txSha = some s) : Tx.shaInvocations t = 0 := by
  simp [Tx.shaInvocations, h]

/-- Repeated `Sha` calls on a handle whose cache is already set return the
cached value every time, leave the handle unchanged, and perform no hash
invocation. -/
theorem Tx.shaCalls_cached {hash : M → S} {t : Tx M S} {s : S}
    (h : t.txSha = some s) :
    ∀ n : Nat, Tx.shaCalls hash n t = some (List.replicate n s, t, 0) := by
  intro n
  induction n with
  | zero => simp [Tx.shaCalls]
  | succ k ih =>
    unfold Tx.shaCalls
    rw [Tx.Sha_cached h]
    simp [ih, Tx.shaInvocations_cached h, List.replicate_succ]

end Lemmas

/-- C1: for every handle on which `Sha` completes, any number N ≥ 1 of
consecutive `Sha` calls returns the same hash value every time, and the
underlying hashing operation is invoked at most once: a set cache is
returned unchanged with no recomputation, otherwise the hash is computed
once, cached, and returned. -/
theorem spec_C1 {M S : Type} (hash : M → S) (t : Tx M S) (n : Nat)
    (hn : 1 ≤ n) (hw : t.txSha.isSome ∨ t.msgTx.isSome) :
    ∃ s : S, ∃ t2 : Tx M S, ∃ c : Nat,
      Tx.shaCalls hash n t = some (List.replicate n s, t2, c) ∧
      c ≤ 1 ∧ t2.txSha = some s := by
  cases hc : t.txSha with
  | some s =>
    exact ⟨s, t, 0, Tx.shaCalls_cached hc n, Nat.zero_le 1, hc⟩
  | none =>
    cases hm : t.msgTx with
    | none => simp [hc, hm] at hw
    | some m =>
      obtain ⟨k, rfl⟩ : ∃ k, n = k + 1 := ⟨n - 1, (Nat.succ_pred_eq_of_pos hn).symm⟩
      refine ⟨hash m, { t with txSha := some (hash m) }, 1, ?_, le_refl 1, rfl⟩
      have hsha : Tx.Sha hash t = some (hash m, { t with txSha := some (hash m) }) := by
        unfold Tx.Sha
        simp [hc, hm]
      unfold Tx.shaCalls
      rw [hsha]
      have hrest :=
        @Tx.shaCalls_cached M S hash { t with txSha := some (hash m) }
          (hash m) rfl k
      simp [hrest, Tx.shaInvocations, hc, List.replicate_succ]

/-- Witness for C1 at a concrete handle and hash function. -/
theorem spec_C1_witness :
    1 ≤ 3 ∧ ((NewTx (some 5) : Tx Nat Nat).txSha.isSome ∨
      (NewTx (some 5) : Tx Nat Nat).msgTx.isSome) ∧
    ∃ s : Nat, ∃ t2 : Tx Nat Nat, ∃ c : Nat,
      Tx.shaCalls Nat.succ 3 (NewTx (some 5)) = some (List.replicate 3 s, t2, c) ∧
      c ≤ 1 ∧ t2.txSha = some s :=
  ⟨by decide, Or.inr rfl,
    spec_C1 Nat.succ (NewTx (some 5)) 3 (by decide) (Or.inr rfl)⟩

/-- C2: `NewTxFromBytes` fails exactly when the external codec rejects the
byte sequence, and then returns the codec error verbatim; since the result
is an error, no handle is produced. -/
theorem spec_C2 {M S E : Type} (deserialize : List Nat → Except E M)
    (b : List Nat) (e : E) :
    NewTxFromBytes (S := S) deserialize b = .error e ↔ deserialize b = .error e := by
  unfold NewTxFromBytes
  cases h : deserialize b <;> simp

/-- Witness for C2 at a concrete rejecting codec and input. -/
theorem spec_C2_witness :
    NewTxFromBytes (S := Nat) lenCodec [0] = .error () :=
  (spec_C2 (S := Nat) lenCodec [0] ()).mpr rfl

/-- C3: for every byte sequence B the codec decodes to record R, the handle
built by `NewTxFromBytes` satisfies the round trip: hashing the record
returned by its `MsgTx` accessor gives hash R, and its `Sha` accessor
returns the externally computed hash R. -/
theorem spec_C3 {M S E : Type} (deserialize : List Nat → Except E M)
    (hash : M → S) (B : List Nat) (R : M) (h : deserialize B = .ok R) :
    ∃ t : Tx M S, NewTxFromBytes deserialize B = .ok t ∧
      (Tx.MsgTx t).map hash = some (hash R) ∧
      (Tx.Sha hash t).map (fun r => r.1) = some (hash R) := by
  refine ⟨{ msgTx := some R, serializedTx := some B, txSha := none,
            txIndex := TxIndexUnknown }, ?_, ?_, ?_⟩
  · unfold NewTxFromBytes
    rw [h]
  · simp [Tx.MsgTx]
  · simp [Tx.Sha]

/-- Witness for C3 at a concrete codec, hasher and byte sequence. -/
theorem spec_C3_witness :
    lenCodec [2, 3] = Except.ok 2 ∧
    ∃ t : Tx Nat Nat,
      NewTxFromBytes lenCodec [2, 3] = .ok t ∧
      (Tx.MsgTx t).map Nat.succ = some (Nat.succ 2) ∧
      (Tx.Sha Nat.succ t).map (fun r => r.1) = some (Nat.succ 2) :=
  ⟨rfl, spec_C3 lenCodec Nat.succ [2, 3] 2 rfl⟩

/-- C4: once the cached hash is set it is permanently fixed: `Sha` returns
it unchanged without recomputation (even if the wrapped record is replaced
by external code), `SetIndex` leaves it unchanged, and the pure accessors
`Index` and `MsgTx` read fields without touching it. -/
theorem spec_C4 {M S : Type} (hash : M → S) (t : Tx M S) (s : S)
    (i : Int) (m : Option M) (h : t.txSha = some s) :
    Tx.Sha hash t = some (s, t) ∧
    Tx.shaInvocations t = 0 ∧
    Tx.Sha hash { t with msgTx := m } = some (s, { t with msgTx := m }) ∧
    (Tx.SetIndex t i).txSha = some s ∧
    Tx.Index t = t.txIndex ∧
    Tx.MsgTx t = t.msgTx := by
  refine ⟨Tx.Sha_cached h, Tx.shaInvocations_cached h, Tx.Sha_cached h,
    ?_, rfl, rfl⟩
  simp [Tx.SetIndex, h]

/-- Witness for C4 at the concrete cached handle `tx95`. -/
theorem spec_C4_witness :
    tx95.txSha = some 9 ∧
    (Tx.Sha Nat.succ tx95 = some (9, tx95) ∧
     Tx.shaInvocations tx95 = 0 ∧
     Tx.Sha Nat.succ { tx95 with msgTx := some 7 }
       = some (9, { tx95 with msgTx := some 7 }) ∧
     (Tx.SetIndex tx95 4).txSha = some 9 ∧
     Tx.Index tx95 = tx95.txIndex ∧
     Tx.MsgTx tx95 = tx95.msgTx) :=
  ⟨rfl, spec_C4 Nat.succ tx95 9 4 (some 7) rfl⟩

/-- A `Sha` call never changes the record pointer, the retained bytes or the
index of the handle. -/
theorem Tx.Sha_frame {M S : Type} {hash : M → S} {t : Tx M S} {s : S}
    {t1 : Tx M S} (h : Tx.Sha hash t = some (s, t1)) :
    t1.msgTx = t.msgTx ∧ t1.serializedTx = t.serializedTx ∧
      t1.txIndex = t.txIndex := by
  unfold Tx.Sha at h
  cases hc : t.txSha with
  | some sha =>
    simp [hc] at h
    rw [← h.2]
    exact ⟨rfl, rfl, rfl⟩
  | none =>
    cases hm : t.msgTx with
    | none => simp [hc, hm] at h
    | some m =>
      simp [hc, hm] at h
      rw [← h.2]
      exact ⟨rfl, rfl, rfl⟩

/-- C5 counterexample: the claim that every operation other than `SetIndex`
leaves every field unchanged is false — a first `Sha` call on a fresh handle
mutates the cached-hash field from `none` to `some`. -/
theorem spec_C5_counterexample :
    (Tx.Sha (fun n : Nat => n) (NewTx (some 0))).map (fun r => r.2.txSha)
      = some (some 0) ∧
    (NewTx (some 0) : Tx Nat Nat).txSha = none :=
  ⟨rfl, rfl⟩

/-- C5 amended: `positionIndex` is mutated only through `SetIndex`, which
changes only `txIndex`; the accessors `Index` and `MsgTx` are pure reads;
the only other mutating operation is `Sha`, and it changes at most the
cached-hash field, never `msgTx`, `serializedTx` or `txIndex`. -/
theorem spec_C5 {M S : Type} (t : Tx M S) (i : Int) (hash : M → S)
    (s : S) (t1 : Tx M S) (h : Tx.Sha hash t = some (s, t1)) :
    (Tx.SetIndex t i).msgTx = t.msgTx ∧
    (Tx.SetIndex t i).serializedTx = t.serializedTx ∧
    (Tx.SetIndex t i).txSha = t.txSha ∧
    (Tx.SetIndex t i).txIndex = i ∧
    Tx.Index t = t.txIndex ∧
    Tx.MsgTx t = t.msgTx ∧
    t1.msgTx = t.msgTx ∧
    t1.serializedTx = t.serializedTx ∧
    t1.txIndex = t.txIndex := by
  obtain ⟨f1, f2, f3⟩ := Tx.Sha_frame h
  exact ⟨rfl, rfl, rfl, rfl, rfl, rfl, f1, f2, f3⟩

/-- Witness for C5 at a fresh concrete handle whose first `Sha` call caches. -/
theorem spec_C5_witness :
    Tx.Sha (fun n : Nat => n) (NewTx (some 0))
      = some (0, { (NewTx (some 0) : Tx Nat Nat) with txSha := some 0 }) ∧
    ((Tx.SetIndex (NewTx (some 0) : Tx Nat Nat) 7).msgTx
        = (NewTx (some 0) : Tx Nat Nat).msgTx ∧
     (Tx.SetIndex (NewTx (some 0) : Tx Nat Nat) 7).serializedTx
        = (NewTx (some 0) : Tx Nat Nat).serializedTx ∧
     (Tx.SetIndex (NewTx (some 0) : Tx Nat Nat) 7).txSha
        = (NewTx (some 0) : Tx Nat Nat).txSha ∧
     (Tx.SetIndex (NewTx (some 0) : Tx Nat Nat) 7).txIndex = 7 ∧
     Tx.Index (NewTx (some 0) : Tx Nat Nat)
        = (NewTx (some 0) : Tx Nat Nat).txIndex ∧
     Tx.MsgTx (NewTx (some 0) : Tx Nat Nat)
        = (NewTx (some 0) : Tx Nat Nat).msgTx ∧
     ({ (NewTx (some 0) : Tx Nat Nat) with txSha := some 0 } : Tx Nat Nat).msgTx
        = (NewTx (some 0) : Tx Nat Nat).msgTx ∧
     ({ (NewTx (some 0) : Tx Nat Nat) with txSha := some 0 } : Tx Nat Nat).serializedTx
        = (NewTx (some 0) : Tx Nat Nat).serializedTx ∧
     ({ (NewTx (some 0) : Tx Nat Nat) with txSha := some 0 } : Tx Nat Nat).txIndex
        = (NewTx (some 0) : Tx Nat Nat).txIndex) :=
  ⟨rfl, spec_C5 (NewTx (some 0)) 7 (fun n => n) 0
    { (NewTx (some 0) : Tx Nat Nat) with txSha := some 0 } rfl⟩

/-- C6: on codec success, `NewTxFromBytes` wraps the decoded record, retains
the original input bytes verbatim, sets the index to the unknown sentinel,
and leaves the cached hash unset. -/
theorem spec_C6 {M S E : Type} (deserialize : List Nat → Except E M)
    (b : List Nat) (R : M) (h : deserialize b = .ok R) :
    NewTxFromBytes (S := S) deserialize b
      = .ok { msgTx := some R, serializedTx := some b, txSha := none,
              txIndex := TxIndexUnknown } := by
  unfold NewTxFromBytes
  rw [h]

/-- Witness for C6 at a concrete codec and byte sequence. -/
theorem spec_C6_witness :
    lenCodec [1, 2, 3] = .ok 3 ∧
    NewTxFromBytes (S := Nat) lenCodec [1, 2, 3]
      = .ok { msgTx := some 3, serializedTx := some [1, 2, 3], txSha := none,
              txIndex := TxIndexUnknown } :=
  ⟨rfl, spec_C6 lenCodec [1, 2, 3] 3 rfl⟩

/-- C7: `NewTx` is total (cannot fail) and wraps the record pointer directly
with the index at the unknown sentinel, `txSha` unset and `serializedTx`
unset; a handle freshly built by either constructor reports the
unknown-index sentinel from `Index`. -/
theorem spec_C7 {M S E : Type} (m : Option M)
    (deserialize : List Nat → Except E M) (b : List Nat) (t : Tx M S)
    (ht : NewTxFromBytes deserialize b = .ok t) :
    NewTx m = ({ msgTx := m, serializedTx := none, txSha := none,
                 txIndex := TxIndexUnknown } : Tx M S) ∧
    Tx.Index (NewTx (S := S) m) = TxIndexUnknown ∧
    Tx.Index t = TxIndexUnknown := by
  refine ⟨rfl, rfl, ?_⟩
  unfold NewTxFromBytes at ht
  cases hd : deserialize b with
  | error e => rw [hd] at ht; exact absurd ht (by simp)
  | ok R =>
    rw [hd] at ht
    simp only [Except.ok.injEq] at ht
    rw [← ht]
    rfl

/-- Witness for C7 at concrete record, codec and byte sequence. -/
theorem spec_C7_witness :
    NewTxFromBytes (S := Nat) lenCodec [1, 2]
      = .ok { msgTx := some 2, serializedTx := some [1, 2], txSha := none,
              txIndex := TxIndexUnknown } ∧
    (NewTx (some 4) = ({ msgTx := some 4, serializedTx := none,
                          txSha := none,
                          txIndex := TxIndexUnknown } : Tx Nat Nat) ∧
     Tx.Index (NewTx (S := Nat) (some 4)) = TxIndexUnknown ∧
     Tx.Index ({ msgTx := some 2, serializedTx := some [1, 2],
                 txSha := none,
                 txIndex := TxIndexUnknown } : Tx Nat Nat) = TxIndexUnknown) :=
  ⟨rfl, spec_C7 (some 4) lenCodec [1, 2]
    { msgTx := some 2, serializedTx := some [1, 2], txSha := none,
      txIndex := TxIndexUnknown } rfl⟩

/-- C8: for every handle and every integer i — negative values other than
the sentinel and the sentinel -1 itself included — `SetIndex` unconditionally
overwrites the index with no validation and no error, and a subsequent
`Index` returns exactly i. -/
theorem spec_C8 {M S : Type} (t : Tx M S) (i : Int) :
    Tx.Index (Tx.SetIndex t i) = i ∧ (Tx.SetIndex t i).txIndex = i :=
  ⟨rfl, rfl⟩

/-- C9: on a handle wrapping a well-formed (non-nil) record, `Sha` always
completes, and `Index` and `SetIndex` are total with no error path. -/
theorem spec_C9 {M S : Type} (hash : M → S) (t : Tx M S) (i : Int)
    (h : t.msgTx.isSome) :
    (Tx.Sha hash t).isSome ∧
    Tx.Index t = t.txIndex ∧
    Tx.Index (Tx.SetIndex t i) = i := by
  refine ⟨?_, rfl, rfl⟩
  cases hc : t.txSha with
  | some s => simp [Tx.Sha, hc]
  | none =>
    cases hm : t.msgTx with
    | none => simp [hm] at h
    | some m => simp [Tx.Sha, hc, hm]

/-- Witness for C9 at a concrete handle with a non-nil record. -/
theorem spec_C9_witness :
    (NewTx (S := Nat) (some 5)).msgTx.isSome ∧
    ((Tx.Sha Nat.succ (NewTx (some 5))).isSome ∧
     Tx.Index (NewTx (S := Nat) (some 5)) = (NewTx (S := Nat) (some 5)).txIndex ∧
     Tx.Index (Tx.SetIndex (NewTx (S := Nat) (some 5)) 2) = 2) :=
  ⟨rfl, spec_C9 Nat.succ (NewTx (some 5)) 2 rfl⟩

/-- C10: `NewTx` performs no nil check, so construction succeeds even for a
nil record pointer; on a handle whose record is nil and whose hash is not
yet cached, `Sha` dereferences the nil pointer (modelled as returning
`none`), so `Sha` is safe only under the precondition that the record is
non-nil. -/
theorem spec_C10 {M S : Type} (hash : M → S) (t : Tx M S)
    (h1 : t.msgTx = none) (h2 : t.txSha = none) :
    NewTx (M := M) (S := S) none
      = { msgTx := none, serializedTx := none, txSha := none,
          txIndex := TxIndexUnknown } ∧
    Tx.Sha hash t = none := by
  refine ⟨rfl, ?_⟩
  simp [Tx.Sha, h1, h2]

/-- Witness for C10 at the handle built from a nil record pointer. -/
theorem spec_C10_witness :
    (NewTx (M := Nat) (S := Nat) none).msgTx = none ∧
    (NewTx (M := Nat) (S := Nat) none).txSha = none ∧
    (NewTx (M := Nat) (S := Nat) none
        = { msgTx := none, serializedTx := none, txSha := none,
            txIndex := TxIndexUnknown } ∧
     Tx.Sha Nat.succ (NewTx none) = none) :=
  ⟨rfl, rfl, spec_C10 Nat.succ (NewTx none) rfl rfl⟩
